import Mathlib

/-!
Verification development for the expo-updates manifest endpoint
(`src/app/api/manifest` route, `src/unnamed/part_000`).

The route is shallowly embedded: the external helpers imported from
`@/common/helpers` (bundle resolution, metadata reads, asset metadata,
key loading, RSA signing, hash-to-UUID derivation, structured-header
serialization, directive factories) are modelled as an explicit
environment of pure functions, exactly as the spec treats them
(external collaborators, contracts only).  The route handler itself
(`GET`, `putUpdateInResponseAsync`, `putRollBackInResponseAsync`,
`putNoUpdateAvailableInResponseAsync`, `getTypeOfUpdateAsync`) is
translated statement by statement from the TypeScript source.
-/

namespace ExpoUpdates

/-! ## A small JSON value model, with `JSON.stringify` semantics -/

inductive JsonVal where
  | str : String → JsonVal
  | num : Int → JsonVal
  | bool : Bool → JsonVal
  | null : JsonVal
  | arr : List JsonVal → JsonVal
  | obj : List (String × JsonVal) → JsonVal
deriving Repr

def hexDigit (n : Nat) : Char :=
  if n < 10 then Char.ofNat ('0'.toNat + n) else Char.ofNat ('a'.toNat + (n - 10))

def hex4 (n : Nat) : String :=
  String.mk [hexDigit (n / 4096 % 16), hexDigit (n / 256 % 16), hexDigit (n / 16 % 16), hexDigit (n % 16)]

/-- Escaping of a single character as performed by `JSON.stringify`. -/
def escapeJsonChar (c : Char) : String :=
  if c == '"' then "\\\""
  else if c == '\\' then "\\\\"
  else if c == '\n' then "\\n"
  else if c == '\r' then "\\r"
  else if c == '\t' then "\\t"
  else if c.toNat == 8 then "\\b"
  else if c.toNat == 12 then "\\f"
  else if c.toNat < 32 then "\\u" ++ hex4 c.toNat
  else String.mk [c]

def escapeJson (s : String) : String :=
  s.foldl (fun acc c => acc ++ escapeJsonChar c) ""

mutual

/-- `JSON.stringify` (no indentation): keys in insertion order, no extra
whitespace. -/
def JsonVal.stringify : JsonVal → String
  | .str s => "\"" ++ escapeJson s ++ "\""
  | .num n => toString n
  | .bool b => if b then "true" else "false"
  | .null => "null"
  | .arr xs => "[" ++ stringifyElems xs ++ "]"
  | .obj fs => "\x7b" ++ stringifyMembers fs ++ "\x7d"

def stringifyElems : List JsonVal → String
  | [] => ""
  | [v] => JsonVal.stringify v
  | v :: v' :: vs => JsonVal.stringify v ++ "," ++ stringifyElems (v' :: vs)

def stringifyMembers : List (String × JsonVal) → String
  | [] => ""
  | [(k, v)] => "\"" ++ escapeJson k ++ "\":" ++ JsonVal.stringify v
  | (k, v) :: m :: ms =>
      "\"" ++ escapeJson k ++ "\":" ++ JsonVal.stringify v ++ "," ++ stringifyMembers (m :: ms)

end

/-! ## JavaScript primitive semantics used by the route -/

/-- A JavaScript number restricted to what `parseInt` can produce:
an integer or `NaN`. -/
inductive JsNum where
  | nan : JsNum
  | int : Int → JsNum
deriving DecidableEq, Repr

/-- `Number.prototype.toString` on a `parseInt` result. -/
def JsNum.toJsString : JsNum → String
  | .nan => "NaN"
  | .int n => toString n

/-- `parseInt(s, 10)`: skip leading whitespace, optional sign, then the
longest digit prefix; `NaN` when there is no digit. -/
def parseInt10 (s : String) : JsNum :=
  let cs := s.toList.dropWhile Char.isWhitespace
  let signAndRest : Bool × List Char :=
    match cs with
    | '-' :: rest => (true, rest)
    | '+' :: rest => (false, rest)
    | _ => (false, cs)
  let digits := signAndRest.2.takeWhile Char.isDigit
  if digits.isEmpty then JsNum.nan
  else
    let n : Nat := digits.foldl (fun acc c => acc * 10 + (c.toNat - '0'.toNat)) 0
    JsNum.int (if signAndRest.1 then -(n : Int) else (n : Int))

/-- JavaScript truthiness of a nullable string (`null` and `""` are falsy). -/
def isTruthy : Option String → Bool
  | none => false
  | some s => s != ""

/-- JavaScript object property assignment `obj[k] = v`: overwrite in place
when the key exists, otherwise append (insertion order preserved). -/
def jsObjectInsert (o : List (String × JsonVal)) (k : String) (v : JsonVal) :
    List (String × JsonVal) :=
  if o.any (fun p => p.fst == k) then
    o.map (fun p => if p.fst == k then (k, v) else p)
  else
    o ++ [(k, v)]

/-! ## HTTP request/response model -/

structure HttpRequest where
  method : String
  headers : List (String × String)
  queryParams : List (String × String)
deriving DecidableEq, Repr

def lookupField (fields : List (String × String)) (name : String) : Option String :=
  (fields.find? (fun p => p.fst == name)).map Prod.snd

/-- `req.headers.get(name)` of the Fetch API: a string or `null`
(never an array). -/
def HttpRequest.getHeader (req : HttpRequest) (name : String) : Option String :=
  lookupField req.headers name

/-- `new URL(req.url).searchParams.get(name)`. -/
def HttpRequest.getQuery (req : HttpRequest) (name : String) : Option String :=
  lookupField req.queryParams name

/-- One part of a `form-data` multipart body: the name, the appended body
string, the `contentType` option and the explicit `header` option. -/
structure FormPart where
  name : String
  body : String
  contentType : String
  headers : List (String × String)
deriving DecidableEq, Repr

inductive ResponseBody where
  | text : String → ResponseBody
  | form : List FormPart → ResponseBody
deriving DecidableEq, Repr

structure HttpResponse where
  status : Nat
  headers : List (String × String)
  body : ResponseBody
deriving DecidableEq, Repr

def HttpResponse.parts (resp : HttpResponse) : List FormPart :=
  match resp.body with
  | .form ps => ps
  | .text _ => []

/-- `new Response(JSON.stringify({ ... }), { status })` with no headers. -/
def textResponse (status : Nat) (body : String) : HttpResponse :=
  { status := status, headers := [], body := .text body }

/-- `JSON.stringify({ error: msg })`. -/
def jsonError (msg : String) : String :=
  JsonVal.stringify (.obj [("error", .str msg)])

/-- A thrown JavaScript exception: either the sentinel
`NoUpdateAvailableError` or a plain `Error` with its message. -/
inductive ThrownErr where
  | noUpdateAvailable : ThrownErr
  | err : String → ThrownErr
deriving DecidableEq, Repr

/-! ## Domain data: bundle metadata and manifests -/

/-- One entry of `metadataJson.fileMetadata[platform].assets`. -/
structure AssetFileInfo where
  path : String
  ext : String
deriving DecidableEq, Repr

structure PlatformMetadata where
  assets : List AssetFileInfo
  bundle : String
deriving DecidableEq, Repr

structure MetadataJson where
  fileMetadata : String → PlatformMetadata

/-- Result of the external `getMetadataAsync` helper. -/
structure BundleMetadata where
  metadataJson : MetadataJson
  createdAt : String
  id : String

/-- Result of the external `getAssetMetadataAsync` helper: a JSON object
whose `key` property the route reads, kept alongside its full JSON value. -/
structure AssetDescriptor where
  key : String
  json : JsonVal
deriving Repr

/-- Arguments of `getAssetMetadataAsync` (`ext` is `null` for the launch
asset). -/
structure AssetMetadataArgs where
  updateBundlePath : String
  filePath : String
  ext : Option String
  runtimeVersion : String
  platform : String
  isLaunchAsset : Bool
deriving DecidableEq, Repr

/-- The manifest object literal assembled by `putUpdateInResponseAsync`. -/
structure Manifest where
  id : String
  createdAt : String
  runtimeVersion : String
  assets : List AssetDescriptor
  launchAsset : AssetDescriptor
  expoConfig : JsonVal

/-- `JSON.stringify(manifest)`: the exact key order of the object literal
in the source (`id`, `createdAt`, `runtimeVersion`, `assets`,
`launchAsset`, `metadata`, `extra`). -/
def Manifest.stringify (m : Manifest) : String :=
  JsonVal.stringify (.obj
    [ ("id", .str m.id)
    , ("createdAt", .str m.createdAt)
    , ("runtimeVersion", .str m.runtimeVersion)
    , ("assets", .arr (m.assets.map AssetDescriptor.json))
    , ("launchAsset", m.launchAsset.json)
    , ("metadata", .obj [])
    , ("extra", .obj [("expoClient", m.expoConfig)]) ])

/-- The external collaborators imported from `@/common/helpers` (and the
`form-data` boundary generator), modelled as pure functions.  The spec
treats all of these as external contracts. -/
structure Env where
  getLatestUpdateBundlePathForRuntimeVersionAsync : String → Except String String
  readdir : String → List String
  getMetadataAsync : String → String → BundleMetadata
  getExpoConfigAsync : String → String → JsonVal
  getAssetMetadataAsync : AssetMetadataArgs → AssetDescriptor
  getPrivateKeyAsync : Option String
  signRSASHA256 : String → String → String
  convertSHA256HashToUUID : String → String
  serializeSignatureDictionary : String → String → String
  createRollBackDirectiveAsync : String → JsonVal
  createNoUpdateAvailableDirectiveAsync : JsonVal
  boundary : String

/-! ## The route handler, translated from the source -/

inductive UpdateType where
  | NORMAL_UPDATE : UpdateType
  | ROLLBACK : UpdateType
deriving DecidableEq, Repr

/-- `getTypeOfUpdateAsync`: ROLLBACK when the bundle directory contains a
`rollback` entry, NORMAL otherwise. -/
def getTypeOfUpdateAsync (env : Env) (updateBundlePath : String) : UpdateType :=
  if (env.readdir updateBundlePath).contains "rollback" then .ROLLBACK else .NORMAL_UPDATE

/-- Header-or-query resolution `req.headers.get('expo-platform') ?? searchParams.get('platform')`. -/
def resolvedPlatform (req : HttpRequest) : Option String :=
  match req.getHeader "expo-platform" with
  | some v => some v
  | none => req.getQuery "platform"

/-- `req.headers.get('expo-runtime-version') ?? searchParams.get('runtime-version')`. -/
def resolvedRuntimeVersion (req : HttpRequest) : Option String :=
  match req.getHeader "expo-runtime-version" with
  | some v => some v
  | none => req.getQuery "runtime-version"

/-- `parseInt(req.headers.get('expo-protocol-version') ?? '0', 10)`. -/
def resolvedProtocolVersion (req : HttpRequest) : JsNum :=
  parseInt10 ((req.getHeader "expo-protocol-version").getD "0")

/-- The 400 response returned when signing is requested but
`getPrivateKeyAsync` yields nothing (identical in all three builders). -/
def codeSigningErrorResponse : HttpResponse :=
  { status := 400
  , headers := [("content-type", "application/json")]
  , body := .text (jsonError "Code signing requested but no key supplied when starting server.") }

/-- The signing block shared verbatim by the three response builders:
when `expo-expect-signature` is truthy, load the key (400 on absence) and
serialize `{ sig, keyid: 'main' }` over the payload string; otherwise no
signature.  An `Except.error` carries the early-returned 400 response. -/
def computeSignature (env : Env) (req : HttpRequest) (payload : String) :
    Except HttpResponse (Option String) :=
  if isTruthy (req.getHeader "expo-expect-signature") then
    match env.getPrivateKeyAsync with
    | none => .error codeSigningErrorResponse
    | some privateKey =>
        .ok (some (env.serializeSignatureDictionary (env.signRSASHA256 payload privateKey) "main"))
  else
    .ok none

/-- The signature value the signing block produces when it does not
early-return (the `signature` local of the source: `null` when signing is
not requested, the serialized dictionary otherwise). -/
def signatureOf (env : Env) (req : HttpRequest) (payload : String) : Option String :=
  match computeSignature env req payload with
  | .ok s => s
  | .error _ => none

/-- The `header` option passed to `form.append` for the payload part:
`content-type` plus the conditional `expo-signature`. -/
def partHeaders (signature : Option String) : List (String × String) :=
  ("content-type", "application/json; charset=utf-8") ::
    (match signature with
     | some s => [("expo-signature", s)]
     | none => [])

/-- A payload part appended with an explicit `header` option. -/
def signedJsonPart (name payload : String) (signature : Option String) : FormPart :=
  { name := name, body := payload, contentType := "application/json", headers := partHeaders signature }

/-- The manifest object literal of `putUpdateInResponseAsync`
(lines 126-154 of the source). -/
def buildManifest (env : Env) (updateBundlePath runtimeVersion platform : String) : Manifest :=
  let meta := env.getMetadataAsync updateBundlePath runtimeVersion
  let platformSpecificMetadata := meta.metadataJson.fileMetadata platform
  { id := env.convertSHA256HashToUUID meta.id
  , createdAt := meta.createdAt
  , runtimeVersion := runtimeVersion
  , assets := platformSpecificMetadata.assets.map (fun asset =>
      env.getAssetMetadataAsync
        { updateBundlePath := updateBundlePath
        , filePath := asset.path
        , ext := some asset.ext
        , runtimeVersion := runtimeVersion
        , platform := platform
        , isLaunchAsset := false })
  , launchAsset := env.getAssetMetadataAsync
      { updateBundlePath := updateBundlePath
      , filePath := platformSpecificMetadata.bundle
      , ext := none
      , runtimeVersion := runtimeVersion
      , platform := platform
      , isLaunchAsset := true }
  , expoConfig := env.getExpoConfigAsync updateBundlePath runtimeVersion }

/-- The `assetRequestHeaders` accumulation: one `test-header` record per
`asset.key` over `[...manifest.assets, manifest.launchAsset]`. -/
def assetRequestHeadersList (manifest : Manifest) : List (String × JsonVal) :=
  (manifest.assets ++ [manifest.launchAsset]).foldl
    (fun acc asset => jsObjectInsert acc asset.key (.obj [("test-header", .str "test-header-value")]))
    []

/-- The `extensions` part (appended with only a `contentType` option). -/
def extensionsPart (manifest : Manifest) : FormPart :=
  { name := "extensions"
  , body := JsonVal.stringify (.obj [("assetRequestHeaders", .obj (assetRequestHeadersList manifest))])
  , contentType := "application/json"
  , headers := [] }

def manifestResponseHeaders (env : Env) (protocolVersion : JsNum) : List (String × String) :=
  [ ("expo-protocol-version", protocolVersion.toJsString)
  , ("expo-sfv-version", "0")
  , ("cache-control", "private, max-age=0")
  , ("content-type", "multipart/mixed; boundary=" ++ env.boundary) ]

/-- The successful multipart manifest response of
`putUpdateInResponseAsync` (lines 182-202). -/
def manifestSuccessResponse (env : Env) (updateBundlePath runtimeVersion platform : String)
    (protocolVersion : JsNum) (signature : Option String) : HttpResponse :=
  let manifest := buildManifest env updateBundlePath runtimeVersion platform
  { status := 200
  , headers := manifestResponseHeaders env protocolVersion
  , body := .form [signedJsonPart "manifest" manifest.stringify signature, extensionsPart manifest] }

/-- `JSON.stringify({ message: 'No update available' })`. -/
def noUpdateMessageBody : String :=
  JsonVal.stringify (.obj [("message", .str "No update available")])

/-- `putUpdateInResponseAsync` (lines 103-203 of the source). -/
def putUpdateInResponseAsync (env : Env) (req : HttpRequest)
    (updateBundlePath runtimeVersion platform : String) (protocolVersion : JsNum) : HttpResponse :=
  let currentUpdateId := req.getHeader "expo-current-update-id"
  let meta := env.getMetadataAsync updateBundlePath runtimeVersion
  if currentUpdateId == some (env.convertSHA256HashToUUID meta.id) && protocolVersion == JsNum.int 1 then
    textResponse 200 noUpdateMessageBody
  else
    let manifest := buildManifest env updateBundlePath runtimeVersion platform
    match computeSignature env req manifest.stringify with
    | .error resp => resp
    | .ok signature =>
        manifestSuccessResponse env updateBundlePath runtimeVersion platform protocolVersion signature

/-- Response headers of the two directive responses: protocol version
pinned to the literal `'1'`. -/
def directiveResponseHeaders (env : Env) : List (String × String) :=
  [ ("expo-protocol-version", "1")
  , ("expo-sfv-version", "0")
  , ("cache-control", "private, max-age=0")
  , ("content-type", "multipart/mixed; boundary=" ++ env.boundary) ]

/-- The successful multipart response carrying a directive part. -/
def directiveSuccessResponse (env : Env) (directive : JsonVal) (signature : Option String) : HttpResponse :=
  { status := 200
  , headers := directiveResponseHeaders env
  , body := .form [signedJsonPart "directive" directive.stringify signature] }

/-- `putRollBackInResponseAsync` (lines 205-264 of the source). -/
def putRollBackInResponseAsync (env : Env) (req : HttpRequest)
    (updateBundlePath : String) (protocolVersion : JsNum) : Except ThrownErr HttpResponse :=
  if protocolVersion == JsNum.int 0 then
    .error (.err "Rollbacks not supported on protocol version 0")
  else if !(isTruthy (req.getHeader "expo-embedded-update-id")) then
    .error (.err "Invalid Expo-Embedded-Update-ID request header specified.")
  else
    let embeddedUpdateId := req.getHeader "expo-embedded-update-id"
    let currentUpdateId := req.getHeader "expo-current-update-id"
    if currentUpdateId == embeddedUpdateId then
      .error .noUpdateAvailable
    else
      let directive := env.createRollBackDirectiveAsync updateBundlePath
      match computeSignature env req directive.stringify with
      | .error resp => .ok resp
      | .ok signature => .ok (directiveSuccessResponse env directive signature)

/-- `putNoUpdateAvailableInResponseAsync` (lines 266-314 of the source). -/
def putNoUpdateAvailableInResponseAsync (env : Env) (req : HttpRequest)
    (protocolVersion : JsNum) : Except ThrownErr HttpResponse :=
  if protocolVersion == JsNum.int 0 then
    .error (.err "NoUpdateAvailable directive not available in protocol version 0")
  else
    let directive := env.createNoUpdateAvailableDirectiveAsync
    match computeSignature env req directive.stringify with
    | .error resp => .ok resp
    | .ok signature => .ok (directiveSuccessResponse env directive signature)

/-- The route handler `GET` (lines 22-91 of the source).  An overall
`Except.error` is an exception that escapes the handler (only possible
from inside the `catch` block; shown unreachable below).  Note: the
`Array.isArray` test on the protocol-version header is dead code under
the Fetch API (`headers.get` never returns an array) and is omitted. -/
def GET (env : Env) (req : HttpRequest) : Except ThrownErr HttpResponse :=
  if req.method != "GET" then
    .ok (textResponse 405 (jsonError "Expected GET."))
  else
    let protocolVersion := resolvedProtocolVersion req
    match resolvedPlatform req with
    | none => .ok (textResponse 400 (jsonError "Unsupported platform. Expected either ios or android."))
    | some platform =>
      if platform == "" || (platform != "ios" && platform != "android") then
        .ok (textResponse 400 (jsonError "Unsupported platform. Expected either ios or android."))
      else
        match resolvedRuntimeVersion req with
        | none => .ok (textResponse 400 (jsonError "No runtimeVersion provided."))
        | some runtimeVersion =>
          if runtimeVersion == "" then
            .ok (textResponse 400 (jsonError "No runtimeVersion provided."))
          else
            match env.getLatestUpdateBundlePathForRuntimeVersionAsync runtimeVersion with
            | .error msg => .ok (textResponse 404 (jsonError msg))
            | .ok updateBundlePath =>
              match getTypeOfUpdateAsync env updateBundlePath with
              | .NORMAL_UPDATE =>
                  .ok (putUpdateInResponseAsync env req updateBundlePath runtimeVersion platform protocolVersion)
              | .ROLLBACK =>
                  match putRollBackInResponseAsync env req updateBundlePath protocolVersion with
                  | .ok resp => .ok resp
                  | .error .noUpdateAvailable =>
                      putNoUpdateAvailableInResponseAsync env req protocolVersion
                  | .error (.err msg) => .ok (textResponse 404 (jsonError msg))

/-! ## Properties of responses and request contexts -/

/-- The hypotheses under which `GET` dispatches to the manifest path:
method `GET`, legal platform, present runtime version, resolvable
bundle, NORMAL bundle type. -/
structure NormalDispatch (env : Env) (req : HttpRequest)
    (updateBundlePath runtimeVersion platform : String) : Prop where
  method_eq : req.method = "GET"
  platform_eq : resolvedPlatform req = some platform
  platform_legal : platform = "ios" ∨ platform = "android"
  runtime_eq : resolvedRuntimeVersion req = some runtimeVersion
  runtime_ne : runtimeVersion ≠ ""
  bundle_eq : env.getLatestUpdateBundlePathForRuntimeVersionAsync runtimeVersion = Except.ok updateBundlePath
  bundle_type : getTypeOfUpdateAsync env updateBundlePath = UpdateType.NORMAL_UPDATE

/-- Same as `NormalDispatch` but for a ROLLBACK bundle. -/
structure RollbackDispatch (env : Env) (req : HttpRequest)
    (updateBundlePath runtimeVersion platform : String) : Prop where
  method_eq : req.method = "GET"
  platform_eq : resolvedPlatform req = some platform
  platform_legal : platform = "ios" ∨ platform = "android"
  runtime_eq : resolvedRuntimeVersion req = some runtimeVersion
  runtime_ne : runtimeVersion ≠ ""
  bundle_eq : env.getLatestUpdateBundlePathForRuntimeVersionAsync runtimeVersion = Except.ok updateBundlePath
  bundle_type : getTypeOfUpdateAsync env updateBundlePath = UpdateType.ROLLBACK

/-- Signing can proceed: either it is not requested, or a private key is
configured. -/
def signingPrereq (env : Env) (req : HttpRequest) : Prop :=
  isTruthy (req.getHeader "expo-expect-signature") = false ∨ ∃ k, env.getPrivateKeyAsync = some k

/-- Every `expo-signature` part header of the response carries the
structured-header dictionary `sig=<signature of exactly that part's
transmitted body>, keyid="main"`. -/
def signatureCoversBody (env : Env) (resp : HttpResponse) : Prop :=
  ∀ part ∈ resp.parts, ∀ σ, ("expo-signature", σ) ∈ part.headers →
    ∃ key, env.getPrivateKeyAsync = some key ∧
      σ = env.serializeSignatureDictionary (env.signRSASHA256 part.body key) "main"

/-- No part of the response carries an `expo-signature` header. -/
def noSignatureHeader (resp : HttpResponse) : Prop :=
  ∀ part ∈ resp.parts, ∀ σ, ("expo-signature", σ) ∉ part.headers

/-! ## Concrete sample data for witnesses and counterexamples -/

def sampleLaunchAsset : AssetDescriptor :=
  { key := "launch-asset-key"
  , json := .obj [("key", .str "launch-asset-key"), ("contentType", .str "application/javascript")] }

def sampleAssetA : AssetDescriptor :=
  { key := "asset-key-a", json := .obj [("key", .str "asset-key-a"), ("contentType", .str "image/png")] }

def sampleAssetB : AssetDescriptor :=
  { key := "asset-key-b", json := .obj [("key", .str "asset-key-b"), ("contentType", .str "font/ttf")] }

def samplePlatformMetadata : PlatformMetadata :=
  { assets := [{ path := "assets/aaaa", ext := "png" }, { path := "assets/bbbb", ext := "ttf" }]
  , bundle := "bundles/ios.js" }

def sampleBundleMetadata : BundleMetadata :=
  { metadataJson := { fileMetadata := fun _ => samplePlatformMetadata }
  , createdAt := "2024-05-01T00:00:00.000Z"
  , id := "hash-1" }

/-- A concrete environment: one NORMAL bundle for runtime version
`1.0.0`, no signing key configured. -/
def sampleEnv : Env :=
  { getLatestUpdateBundlePathForRuntimeVersionAsync := fun rv =>
      if rv == "1.0.0" then .ok "updates/1.0.0/100"
      else .error ("Unsupported runtime version: " ++ rv)
  , readdir := fun _ => ["bundles", "assets", "metadata.json"]
  , getMetadataAsync := fun _ _ => sampleBundleMetadata
  , getExpoConfigAsync := fun _ _ => .obj [("name", .str "test-app")]
  , getAssetMetadataAsync := fun args =>
      if args.isLaunchAsset then sampleLaunchAsset
      else if args.filePath == "assets/aaaa" then sampleAssetA
      else sampleAssetB
  , getPrivateKeyAsync := none
  , signRSASHA256 := fun message key => "rsa-sha256(" ++ key ++ ";" ++ message ++ ")"
  , convertSHA256HashToUUID := fun h => "uuid-" ++ h
  , serializeSignatureDictionary := fun sig keyid => "sig=:" ++ sig ++ ":, keyid=\"" ++ keyid ++ "\""
  , createRollBackDirectiveAsync := fun _ =>
      .obj [("type", .str "rollBackToEmbedded"), ("parameters", .obj [("commitTime", .str "2024-05-01T00:00:00.000Z")])]
  , createNoUpdateAvailableDirectiveAsync := .obj [("type", .str "noUpdateAvailable"), ("parameters", .obj [])]
  , boundary := "----boundary1234" }

/-- `sampleEnv` with a signing key configured. -/
def sampleEnvWithKey : Env := { sampleEnv with getPrivateKeyAsync := some "PRIVATE-KEY" }

/-- `sampleEnv` where the resolved bundle directory contains the
`rollback` marker file. -/
def rollbackEnv : Env := { sampleEnv with readdir := fun _ => ["rollback"] }

/-- `rollbackEnv` with a signing key configured. -/
def rollbackEnvWithKey : Env := { rollbackEnv with getPrivateKeyAsync := some "PRIVATE-KEY" }

def mkRequest (headers : List (String × String)) : HttpRequest :=
  { method := "GET", headers := headers, queryParams := [] }

/-- Status of the handler result, when it produced a response. -/
def respStatus (r : Except ThrownErr HttpResponse) : Option Nat :=
  match r with
  | .ok resp => some resp.status
  | .error _ => none

/-- Body of the `extensions` part of the response, when present. -/
def extensionsBodyOf (r : Except ThrownErr HttpResponse) : Option String :=
  match r with
  | .ok resp => (resp.parts.find? (fun p => p.name == "extensions")).map FormPart.body
  | .error _ => none

/-! ## Helper lemmas -/

theorem GET_normal_dispatch (env : Env) (req : HttpRequest)
    (updateBundlePath runtimeVersion platform : String)
    (h : NormalDispatch env req updateBundlePath runtimeVersion platform) :
    GET env req = .ok (putUpdateInResponseAsync env req updateBundlePath runtimeVersion platform
      (resolvedProtocolVersion req)) := by
  have hrv : (runtimeVersion == "") = false := beq_eq_false_iff_ne.mpr h.runtime_ne
  rcases h.platform_legal with hp | hp <;>
    subst hp <;>
    simp [GET, h.method_eq, h.platform_eq, h.runtime_eq, hrv, h.bundle_eq, h.bundle_type]

theorem GET_rollback_dispatch (env : Env) (req : HttpRequest)
    (updateBundlePath runtimeVersion platform : String)
    (h : RollbackDispatch env req updateBundlePath runtimeVersion platform) :
    GET env req =
      (match putRollBackInResponseAsync env req updateBundlePath (resolvedProtocolVersion req) with
       | .ok resp => .ok resp
       | .error .noUpdateAvailable =>
           putNoUpdateAvailableInResponseAsync env req (resolvedProtocolVersion req)
       | .error (.err msg) => .ok (textResponse 404 (jsonError msg))) := by
  have hrv : (runtimeVersion == "") = false := beq_eq_false_iff_ne.mpr h.runtime_ne
  rcases h.platform_legal with hp | hp <;>
    subst hp <;>
    simp [GET, h.method_eq, h.platform_eq, h.runtime_eq, hrv, h.bundle_eq, h.bundle_type]

theorem computeSignature_flag_false (env : Env) (req : HttpRequest) (payload : String)
    (h : isTruthy (req.getHeader "expo-expect-signature") = false) :
    computeSignature env req payload = .ok none := by
  simp [computeSignature, h]

theorem computeSignature_no_key (env : Env) (req : HttpRequest) (payload : String)
    (hT : isTruthy (req.getHeader "expo-expect-signature") = true)
    (hk : env.getPrivateKeyAsync = none) :
    computeSignature env req payload = .error codeSigningErrorResponse := by
  simp [computeSignature, hT, hk]

theorem computeSignature_with_key (env : Env) (req : HttpRequest) (payload key : String)
    (hT : isTruthy (req.getHeader "expo-expect-signature") = true)
    (hk : env.getPrivateKeyAsync = some key) :
    computeSignature env req payload =
      .ok (some (env.serializeSignatureDictionary (env.signRSASHA256 payload key) "main")) := by
  simp [computeSignature, hT, hk]

theorem computeSignature_eq_of_prereq (env : Env) (req : HttpRequest) (payload : String)
    (h : signingPrereq env req) :
    computeSignature env req payload = .ok (signatureOf env req payload) := by
  cases hcs : computeSignature env req payload with
  | ok s => simp [signatureOf, hcs]
  | error r =>
      exfalso
      unfold computeSignature at hcs
      rcases h with hf | ⟨k, hk⟩
      · rw [hf] at hcs; simp at hcs
      · split at hcs
        · rw [hk] at hcs; simp at hcs
        · simp at hcs

theorem signatureOf_isSome (env : Env) (req : HttpRequest) (payload key : String)
    (hT : isTruthy (req.getHeader "expo-expect-signature") = true)
    (hk : env.getPrivateKeyAsync = some key) :
    (signatureOf env req payload).isSome = true := by
  simp [signatureOf, computeSignature_with_key env req payload key hT hk]

theorem computeSignature_some_inv (env : Env) (req : HttpRequest) (payload σ : String)
    (h : computeSignature env req payload = .ok (some σ)) :
    ∃ key, env.getPrivateKeyAsync = some key ∧
      σ = env.serializeSignatureDictionary (env.signRSASHA256 payload key) "main" := by
  unfold computeSignature at h
  split at h
  · cases hk : env.getPrivateKeyAsync with
    | none => rw [hk] at h; exact absurd h (by simp)
    | some key =>
        rw [hk] at h
        refine ⟨key, rfl, ?_⟩
        simp only [Except.ok.injEq, Option.some.injEq] at h
        exact h.symm
  · exact absurd h (by simp)

theorem computeSignature_error_inv (env : Env) (req : HttpRequest) (payload : String)
    (r : HttpResponse) (h : computeSignature env req payload = .error r) :
    r = codeSigningErrorResponse := by
  unfold computeSignature at h
  split at h
  · cases hk : env.getPrivateKeyAsync with
    | none => rw [hk] at h; simpa using h.symm
    | some k => rw [hk] at h; simp at h
  · simp at h

theorem putUpdate_shortcut (env : Env) (req : HttpRequest)
    (updateBundlePath runtimeVersion platform : String)
    (hcur : req.getHeader "expo-current-update-id" =
      some (env.convertSHA256HashToUUID (env.getMetadataAsync updateBundlePath runtimeVersion).id)) :
    putUpdateInResponseAsync env req updateBundlePath runtimeVersion platform (JsNum.int 1) =
      textResponse 200 noUpdateMessageBody := by
  simp [putUpdateInResponseAsync, hcur]

theorem putUpdate_no_shortcut (env : Env) (req : HttpRequest)
    (updateBundlePath runtimeVersion platform : String) (pv : JsNum)
    (h : (req.getHeader "expo-current-update-id" ==
        some (env.convertSHA256HashToUUID (env.getMetadataAsync updateBundlePath runtimeVersion).id)
        && pv == JsNum.int 1) = false) :
    putUpdateInResponseAsync env req updateBundlePath runtimeVersion platform pv =
      (match computeSignature env req (buildManifest env updateBundlePath runtimeVersion platform).stringify with
       | .error resp => resp
       | .ok signature =>
           manifestSuccessResponse env updateBundlePath runtimeVersion platform pv signature) := by
  simp only [putUpdateInResponseAsync, h, Bool.false_eq_true, if_false]

theorem covers_text (env : Env) (status : Nat) (body : String) :
    signatureCoversBody env (textResponse status body) := by
  intro part hmem
  simp [textResponse, HttpResponse.parts] at hmem

theorem covers_codeSigningError (env : Env) :
    signatureCoversBody env codeSigningErrorResponse := by
  intro part hmem
  simp [codeSigningErrorResponse, HttpResponse.parts] at hmem

theorem signedJsonPart_covers (env : Env) (req : HttpRequest) (payload : String)
    (sig : Option String) (partName σ : String)
    (hcs : computeSignature env req payload = .ok sig)
    (hσ : ("expo-signature", σ) ∈ (signedJsonPart partName payload sig).headers) :
    ∃ key, env.getPrivateKeyAsync = some key ∧
      σ = env.serializeSignatureDictionary (env.signRSASHA256 payload key) "main" := by
  cases sig with
  | none => simp [signedJsonPart, partHeaders] at hσ
  | some s =>
      simp only [signedJsonPart, partHeaders, List.mem_cons, List.not_mem_nil, or_false,
        Prod.mk.injEq] at hσ
      rcases hσ with ⟨h1, _⟩ | ⟨_, h2⟩
      · exact absurd h1 (by decide)
      · subst h2
        exact computeSignature_some_inv env req payload _ hcs

theorem covers_manifestSuccess (env : Env) (req : HttpRequest)
    (updateBundlePath runtimeVersion platform : String) (pv : JsNum) (sig : Option String)
    (hcs : computeSignature env req (buildManifest env updateBundlePath runtimeVersion platform).stringify = .ok sig) :
    signatureCoversBody env (manifestSuccessResponse env updateBundlePath runtimeVersion platform pv sig) := by
  intro part hmem σ hσ
  simp only [manifestSuccessResponse, HttpResponse.parts, List.mem_cons, List.not_mem_nil,
    or_false] at hmem
  rcases hmem with h | h
  · subst h
    exact signedJsonPart_covers env req _ sig "manifest" σ hcs hσ
  · subst h
    simp [extensionsPart] at hσ

theorem covers_directiveSuccess (env : Env) (req : HttpRequest) (directive : JsonVal)
    (sig : Option String)
    (hcs : computeSignature env req directive.stringify = .ok sig) :
    signatureCoversBody env (directiveSuccessResponse env directive sig) := by
  intro part hmem σ hσ
  simp only [directiveSuccessResponse, HttpResponse.parts, List.mem_cons, List.not_mem_nil,
    or_false] at hmem
  subst hmem
  exact signedJsonPart_covers env req _ sig "directive" σ hcs hσ

theorem putUpdate_shortcut_cond (env : Env) (req : HttpRequest)
    (updateBundlePath runtimeVersion platform : String) (pv : JsNum)
    (h : (req.getHeader "expo-current-update-id" ==
        some (env.convertSHA256HashToUUID (env.getMetadataAsync updateBundlePath runtimeVersion).id)
        && pv == JsNum.int 1) = true) :
    putUpdateInResponseAsync env req updateBundlePath runtimeVersion platform pv =
      textResponse 200 noUpdateMessageBody := by
  simp only [putUpdateInResponseAsync, h, if_true]

theorem covers_putUpdate (env : Env) (req : HttpRequest)
    (updateBundlePath runtimeVersion platform : String) (pv : JsNum) :
    signatureCoversBody env (putUpdateInResponseAsync env req updateBundlePath runtimeVersion platform pv) := by
  by_cases hc : (req.getHeader "expo-current-update-id" ==
      some (env.convertSHA256HashToUUID (env.getMetadataAsync updateBundlePath runtimeVersion).id)
      && pv == JsNum.int 1) = true
  · rw [putUpdate_shortcut_cond env req _ _ _ pv hc]
    exact covers_text env 200 noUpdateMessageBody
  · rw [putUpdate_no_shortcut env req _ _ _ pv (by simpa using hc)]
    split
    next resp heq =>
      rw [computeSignature_error_inv env req _ resp heq]
      exact covers_codeSigningError env
    next sig heq => exact covers_manifestSuccess env req _ _ _ pv sig heq

theorem covers_putRollBack (env : Env) (req : HttpRequest) (updateBundlePath : String)
    (pv : JsNum) (resp : HttpResponse)
    (h : putRollBackInResponseAsync env req updateBundlePath pv = .ok resp) :
    signatureCoversBody env resp := by
  simp only [putRollBackInResponseAsync] at h
  split at h
  · simp at h
  · split at h
    · simp at h
    · split at h
      · simp at h
      · split at h
        next r heq =>
          injection h with h
          subst h
          rw [computeSignature_error_inv env req _ r heq]
          exact covers_codeSigningError env
        next sig heq =>
          injection h with h
          subst h
          exact covers_directiveSuccess env req _ sig heq

theorem covers_putNoUpdate (env : Env) (req : HttpRequest) (pv : JsNum) (resp : HttpResponse)
    (h : putNoUpdateAvailableInResponseAsync env req pv = .ok resp) :
    signatureCoversBody env resp := by
  simp only [putNoUpdateAvailableInResponseAsync] at h
  split at h
  · simp at h
  · split at h
    next r heq =>
      injection h with h
      subst h
      rw [computeSignature_error_inv env req _ r heq]
      exact covers_codeSigningError env
    next sig heq =>
      injection h with h
      subst h
      exact covers_directiveSuccess env req _ sig heq

/-! ## Claim theorems -/

/-- C5: for every GET request resolving to a ROLLBACK bundle with
protocol version exactly 0, the handler fails immediately with a generic
404 failure whose error message references the unsupported protocol
version, regardless of the embedded-update-id header and without
constructing any directive (the response is independent of the request's
remaining headers and of the directive factory). -/
theorem C5_rollback_protocol_zero_fails (env : Env) (req : HttpRequest)
    (updateBundlePath runtimeVersion platform : String)
    (hd : RollbackDispatch env req updateBundlePath runtimeVersion platform)
    (hpv : resolvedProtocolVersion req = JsNum.int 0) :
    GET env req = .ok (textResponse 404 (jsonError "Rollbacks not supported on protocol version 0")) := by
  rw [GET_rollback_dispatch env req _ _ _ hd, hpv]
  simp [putRollBackInResponseAsync]

/-- Witness for C5: a concrete rollback bundle and a request without a
protocol-version header (which defaults to 0). -/
theorem C5_witness :
    GET rollbackEnv (mkRequest [("expo-platform", "ios"), ("expo-runtime-version", "1.0.0"), ("expo-embedded-update-id", "u-1")]) =
      .ok (textResponse 404 (jsonError "Rollbacks not supported on protocol version 0")) :=
  C5_rollback_protocol_zero_fails rollbackEnv _ "updates/1.0.0/100" "1.0.0" "ios"
    ⟨rfl, rfl, Or.inl rfl, rfl, by decide, rfl, rfl⟩ rfl

/-- C6: in every response the handler produces, any `expo-signature`
part header carries the structured-header dictionary whose `sig` member
is the RSA-SHA256 signature of byte-for-byte the JSON string transmitted
as that part's body (with `keyid` fixed to `main`): signing and framing
use the one serialized string, so no re-serialization difference can
exist between the signed string and the transmitted part body. -/
theorem C6_signature_covers_exact_body (env : Env) (req : HttpRequest) (resp : HttpResponse)
    (h : GET env req = Except.ok resp) : signatureCoversBody env resp := by
  simp only [GET] at h
  repeat' split at h
  all_goals try (injection h with h; subst h)
  all_goals first
    | exact covers_text _ _ _
    | exact covers_putUpdate _ _ _ _ _ _
    | exact covers_putNoUpdate _ _ _ _ h
    | (rename_i heq; exact covers_putRollBack _ _ _ _ _ heq)

/-- Witness for C6: a concrete signed manifest response (key configured,
signature requested). -/
theorem C6_witness :
    signatureCoversBody sampleEnvWithKey
      (putUpdateInResponseAsync sampleEnvWithKey
        (mkRequest [("expo-platform", "ios"), ("expo-runtime-version", "1.0.0"), ("expo-expect-signature", "true")])
        "updates/1.0.0/100" "1.0.0" "ios" (JsNum.int 0)) :=
  C6_signature_covers_exact_body sampleEnvWithKey
    (mkRequest [("expo-platform", "ios"), ("expo-runtime-version", "1.0.0"), ("expo-expect-signature", "true")])
    _ (by rfl)

/-- C9: the identifier tested against `expo-current-update-id` in the
manifest-path shortcut is the very `convertSHA256HashToUUID(id)` that is
served as the manifest's `id` field, so a protocol-version-1 request that
echoes the served manifest id takes the no-update shortcut instead of
being served the manifest again. -/
theorem C9_served_id_roundtrip (env : Env) (req : HttpRequest)
    (updateBundlePath runtimeVersion platform : String)
    (hcur : req.getHeader "expo-current-update-id" =
      some (buildManifest env updateBundlePath runtimeVersion platform).id) :
    (buildManifest env updateBundlePath runtimeVersion platform).id =
        env.convertSHA256HashToUUID (env.getMetadataAsync updateBundlePath runtimeVersion).id
      ∧ putUpdateInResponseAsync env req updateBundlePath runtimeVersion platform (JsNum.int 1) =
        textResponse 200 noUpdateMessageBody := by
  refine ⟨rfl, ?_⟩
  exact putUpdate_shortcut env req _ _ _ hcur

/-- Witness for C9: echoing the concrete served id `uuid-hash-1` under
protocol version 1 yields the plain no-update message. -/
theorem C9_witness :
    (buildManifest sampleEnv "updates/1.0.0/100" "1.0.0" "ios").id =
        sampleEnv.convertSHA256HashToUUID (sampleEnv.getMetadataAsync "updates/1.0.0/100" "1.0.0").id
      ∧ putUpdateInResponseAsync sampleEnv
          (mkRequest [("expo-platform", "ios"), ("expo-runtime-version", "1.0.0"), ("expo-current-update-id", "uuid-hash-1")])
          "updates/1.0.0/100" "1.0.0" "ios" (JsNum.int 1) =
        textResponse 200 noUpdateMessageBody :=
  C9_served_id_roundtrip sampleEnv
    (mkRequest [("expo-platform", "ios"), ("expo-runtime-version", "1.0.0"), ("expo-current-update-id", "uuid-hash-1")])
    "updates/1.0.0/100" "1.0.0" "ios" rfl

/-- C1 counterexample: protocol version 0, current-update-id equal to
the served UUID, signing requested but no key configured.  The claim
says a full manifest is always served under protocol version 0, but the
code returns the code-signing 400 error response instead. -/
theorem C1_counterexample :
    GET sampleEnv (mkRequest [("expo-protocol-version", "0"), ("expo-platform", "ios"), ("expo-runtime-version", "1.0.0"), ("expo-current-update-id", "uuid-hash-1"), ("expo-expect-signature", "true")]) =
      .ok codeSigningErrorResponse
    ∧ codeSigningErrorResponse.status = 400 :=
  ⟨rfl, rfl⟩

/-- C1 (amended): for a GET request resolving to a NORMAL bundle, if the
protocol version is 1 and `expo-current-update-id` equals the UUID
derived from the bundle's hash, the plain unsigned non-multipart 200
message is returned regardless of the signature flag; under protocol
version 0 the shortcut is never taken and — provided signing is not
requested or a key is configured — the full multipart manifest is
served. -/
theorem C1_no_update_shortcut (env : Env) (req : HttpRequest)
    (updateBundlePath runtimeVersion platform : String)
    (hd : NormalDispatch env req updateBundlePath runtimeVersion platform) :
    (resolvedProtocolVersion req = JsNum.int 1 →
      req.getHeader "expo-current-update-id" =
        some (env.convertSHA256HashToUUID (env.getMetadataAsync updateBundlePath runtimeVersion).id) →
      GET env req = .ok (textResponse 200 noUpdateMessageBody))
    ∧ (resolvedProtocolVersion req = JsNum.int 0 →
        GET env req ≠ .ok (textResponse 200 noUpdateMessageBody)
        ∧ (signingPrereq env req →
            GET env req = .ok (manifestSuccessResponse env updateBundlePath runtimeVersion platform
              (JsNum.int 0)
              (signatureOf env req (buildManifest env updateBundlePath runtimeVersion platform).stringify)))) := by
  constructor
  · intro hpv hcur
    rw [GET_normal_dispatch env req _ _ _ hd, hpv, putUpdate_shortcut env req _ _ _ hcur]
  · intro hpv
    have hns : (req.getHeader "expo-current-update-id" ==
        some (env.convertSHA256HashToUUID (env.getMetadataAsync updateBundlePath runtimeVersion).id)
        && JsNum.int 0 == JsNum.int 1) = false := by
      simp
    constructor
    · rw [GET_normal_dispatch env req _ _ _ hd, hpv,
        putUpdate_no_shortcut env req _ _ _ _ hns]
      cases hcs : computeSignature env req (buildManifest env updateBundlePath runtimeVersion platform).stringify with
      | error r =>
          simp only [hcs]
          rw [computeSignature_error_inv env req _ r hcs]
          intro hcontra
          injection hcontra with hcontra
          have hs := congrArg HttpResponse.status hcontra
          simp [codeSigningErrorResponse, textResponse] at hs
      | ok s =>
          simp only [hcs]
          intro hcontra
          injection hcontra with hcontra
          have hb := congrArg HttpResponse.body hcontra
          simp [manifestSuccessResponse, textResponse] at hb
    · intro hsp
      rw [GET_normal_dispatch env req _ _ _ hd, hpv,
        putUpdate_no_shortcut env req _ _ _ _ hns,
        computeSignature_eq_of_prereq env req _ hsp]

/-- Witness for C1: a concrete protocol-version-1 request echoing the
derived UUID, with signing requested and no key, still receives the
plain unsigned no-update message. -/
theorem C1_witness :
    GET sampleEnv (mkRequest [("expo-protocol-version", "1"), ("expo-platform", "ios"), ("expo-runtime-version", "1.0.0"), ("expo-current-update-id", "uuid-hash-1"), ("expo-expect-signature", "true")]) =
      .ok (textResponse 200 noUpdateMessageBody) :=
  (C1_no_update_shortcut sampleEnv
    (mkRequest [("expo-protocol-version", "1"), ("expo-platform", "ios"), ("expo-runtime-version", "1.0.0"), ("expo-current-update-id", "uuid-hash-1"), ("expo-expect-signature", "true")])
    "updates/1.0.0/100" "1.0.0" "ios"
    ⟨rfl, rfl, Or.inl rfl, rfl, by decide, rfl, rfl⟩).1 rfl rfl

/-- C2 counterexample: a protocol-version header that does not parse as
an integer is NOT rejected with 400: the parse yields NaN, which is used
as-is, and the request is served a 200 multipart manifest. -/
theorem C2_counterexample :
    resolvedProtocolVersion (mkRequest [("expo-protocol-version", "abc"), ("expo-platform", "ios"), ("expo-runtime-version", "1.0.0")]) = JsNum.nan
    ∧ respStatus (GET sampleEnv (mkRequest [("expo-protocol-version", "abc"), ("expo-platform", "ios"), ("expo-runtime-version", "1.0.0")])) = some 200 :=
  ⟨rfl, rfl⟩

/-- C2 (amended): before any bundle work, a missing or illegal platform
yields the 400 platform error, and a missing (or empty) runtime version
yields the 400 runtime-version error; the protocol-version header,
however, is never validated — `parseInt`'s result, including NaN, is
used without any check. -/
theorem C2_input_validation (env : Env) (req : HttpRequest) (hm : req.method = "GET") :
    ((resolvedPlatform req = none ∨
        ∃ p, resolvedPlatform req = some p ∧ p ≠ "ios" ∧ p ≠ "android") →
      GET env req = .ok (textResponse 400 (jsonError "Unsupported platform. Expected either ios or android.")))
    ∧ (∀ p, resolvedPlatform req = some p → (p = "ios" ∨ p = "android") →
        (resolvedRuntimeVersion req = none ∨ resolvedRuntimeVersion req = some "") →
        GET env req = .ok (textResponse 400 (jsonError "No runtimeVersion provided."))) := by
  constructor
  · intro hbad
    rcases hbad with hnone | ⟨p, hp, hi, ha⟩
    · simp [GET, hm, hnone]
    · have hi' : (p == "ios") = false := beq_eq_false_iff_ne.mpr hi
      have ha' : (p == "android") = false := beq_eq_false_iff_ne.mpr ha
      have hcond : (p == "" || (p != "ios" && p != "android")) = true := by
        simp [bne, hi', ha']
      simp [GET, hm, hp, hcond]
  · intro p hp hleg hrv
    rcases hleg with h | h <;> subst h <;>
      rcases hrv with h2 | h2 <;> simp [GET, hm, hp, h2]

/-- Witness for C2: an unsupported platform is rejected with the 400
platform error before any bundle work. -/
theorem C2_witness :
    GET sampleEnv (mkRequest [("expo-platform", "windows"), ("expo-runtime-version", "1.0.0")]) =
      .ok (textResponse 400 (jsonError "Unsupported platform. Expected either ios or android.")) :=
  (C2_input_validation sampleEnv
    (mkRequest [("expo-platform", "windows"), ("expo-runtime-version", "1.0.0")]) rfl).1
    (Or.inr ⟨"windows", rfl, by decide, by decide⟩)

/-- C3 counterexample: rollback bundle, protocol version 1, no
`expo-embedded-update-id` header.  The claim says HTTP 400; the code
throws and the handler converts the thrown error into HTTP 404. -/
theorem C3_counterexample :
    GET rollbackEnv (mkRequest [("expo-protocol-version", "1"), ("expo-platform", "ios"), ("expo-runtime-version", "1.0.0")]) =
      .ok (textResponse 404 (jsonError "Invalid Expo-Embedded-Update-ID request header specified."))
    ∧ (404 : Nat) ≠ 400 :=
  ⟨rfl, by decide⟩

/-- C3 (amended): for a GET request resolving to a ROLLBACK bundle under
a non-zero protocol version, an absent (or empty) embedded-update-id
header makes the request fail with HTTP status 404 — not 400 — carrying
the descriptive message, and no directive is constructed. -/
theorem C3_missing_embedded_update_id (env : Env) (req : HttpRequest)
    (updateBundlePath runtimeVersion platform : String)
    (hd : RollbackDispatch env req updateBundlePath runtimeVersion platform)
    (hpv : resolvedProtocolVersion req ≠ JsNum.int 0)
    (hemb : isTruthy (req.getHeader "expo-embedded-update-id") = false) :
    GET env req = .ok (textResponse 404 (jsonError "Invalid Expo-Embedded-Update-ID request header specified.")) := by
  rw [GET_rollback_dispatch env req _ _ _ hd]
  have h0 : (resolvedProtocolVersion req == JsNum.int 0) = false := beq_eq_false_iff_ne.mpr hpv
  simp [putRollBackInResponseAsync, h0, hemb]

/-- Witness for C3: concrete rollback request with protocol version 7
and no embedded-update-id header. -/
theorem C3_witness :
    GET rollbackEnv (mkRequest [("expo-protocol-version", "7"), ("expo-platform", "android"), ("expo-runtime-version", "1.0.0")]) =
      .ok (textResponse 404 (jsonError "Invalid Expo-Embedded-Update-ID request header specified.")) :=
  C3_missing_embedded_update_id rollbackEnv
    (mkRequest [("expo-protocol-version", "7"), ("expo-platform", "android"), ("expo-runtime-version", "1.0.0")])
    "updates/1.0.0/100" "1.0.0" "android"
    ⟨rfl, rfl, Or.inr rfl, rfl, by decide, rfl, rfl⟩ (by decide) rfl

/-- C4 counterexample: rollback bundle, protocol version 1, current
update id equal to the embedded one, signing requested, no key
configured.  The claim says the request always yields a successful 200
multipart directive, but the code surfaces the 400 code-signing error. -/
theorem C4_counterexample :
    GET rollbackEnv (mkRequest [("expo-protocol-version", "1"), ("expo-platform", "ios"), ("expo-runtime-version", "1.0.0"), ("expo-embedded-update-id", "u-1"), ("expo-current-update-id", "u-1"), ("expo-expect-signature", "true")]) =
      .ok codeSigningErrorResponse
    ∧ codeSigningErrorResponse.status = 400 :=
  ⟨rfl, rfl⟩

/-- C4 (amended): for a GET request resolving to a ROLLBACK bundle with
non-zero protocol version, embedded-update-id present and equal to
expo-current-update-id, and — as the counterexample forces — a signing
key configured whenever the signature flag is set, the no-update
condition is converted into the successful 200 multipart response with
the single part `directive` holding the NoUpdateAvailable directive
(signed exactly when the flag is set), `expo-protocol-version` pinned
to "1". -/
theorem C4_rollback_no_update_directive (env : Env) (req : HttpRequest)
    (updateBundlePath runtimeVersion platform e : String)
    (hd : RollbackDispatch env req updateBundlePath runtimeVersion platform)
    (hpv : resolvedProtocolVersion req ≠ JsNum.int 0)
    (hemb : req.getHeader "expo-embedded-update-id" = some e) (he : e ≠ "")
    (hcur : req.getHeader "expo-current-update-id" = some e)
    (hsp : signingPrereq env req) :
    GET env req = .ok (directiveSuccessResponse env env.createNoUpdateAvailableDirectiveAsync
        (signatureOf env req env.createNoUpdateAvailableDirectiveAsync.stringify))
      ∧ (isTruthy (req.getHeader "expo-expect-signature") = true →
          (signatureOf env req env.createNoUpdateAvailableDirectiveAsync.stringify).isSome = true) := by
  have h0 : (resolvedProtocolVersion req == JsNum.int 0) = false := beq_eq_false_iff_ne.mpr hpv
  have hT : isTruthy (req.getHeader "expo-embedded-update-id") = true := by
    rw [hemb]
    simpa [isTruthy] using he
  have hce : (req.getHeader "expo-current-update-id" == req.getHeader "expo-embedded-update-id") = true := by
    rw [hcur, hemb]
    simp
  constructor
  · rw [GET_rollback_dispatch env req _ _ _ hd]
    simp only [putRollBackInResponseAsync, h0, hT, Bool.false_eq_true, if_false,
      Bool.not_true, hce, if_true]
    simp only [putNoUpdateAvailableInResponseAsync, h0, Bool.false_eq_true, if_false,
      computeSignature_eq_of_prereq env req _ hsp]
  · intro hflag
    rcases hsp with hf | ⟨k, hk⟩
    · rw [hf] at hflag
      cases hflag
    · exact signatureOf_isSome env req _ k hflag hk

/-- Witness for C4: a concrete rollback request whose current update id
equals the embedded one, with signing requested and a key configured. -/
theorem C4_witness :
    GET rollbackEnvWithKey (mkRequest [("expo-protocol-version", "1"), ("expo-platform", "ios"), ("expo-runtime-version", "1.0.0"), ("expo-embedded-update-id", "u-1"), ("expo-current-update-id", "u-1"), ("expo-expect-signature", "true")]) =
      .ok (directiveSuccessResponse rollbackEnvWithKey
        rollbackEnvWithKey.createNoUpdateAvailableDirectiveAsync
        (signatureOf rollbackEnvWithKey
          (mkRequest [("expo-protocol-version", "1"), ("expo-platform", "ios"), ("expo-runtime-version", "1.0.0"), ("expo-embedded-update-id", "u-1"), ("expo-current-update-id", "u-1"), ("expo-expect-signature", "true")])
          rollbackEnvWithKey.createNoUpdateAvailableDirectiveAsync.stringify))
      ∧ (isTruthy ((mkRequest [("expo-protocol-version", "1"), ("expo-platform", "ios"), ("expo-runtime-version", "1.0.0"), ("expo-embedded-update-id", "u-1"), ("expo-current-update-id", "u-1"), ("expo-expect-signature", "true")]).getHeader "expo-expect-signature") = true →
          (signatureOf rollbackEnvWithKey
            (mkRequest [("expo-protocol-version", "1"), ("expo-platform", "ios"), ("expo-runtime-version", "1.0.0"), ("expo-embedded-update-id", "u-1"), ("expo-current-update-id", "u-1"), ("expo-expect-signature", "true")])
            rollbackEnvWithKey.createNoUpdateAvailableDirectiveAsync.stringify).isSome = true) :=
  C4_rollback_no_update_directive rollbackEnvWithKey
    (mkRequest [("expo-protocol-version", "1"), ("expo-platform", "ios"), ("expo-runtime-version", "1.0.0"), ("expo-embedded-update-id", "u-1"), ("expo-current-update-id", "u-1"), ("expo-expect-signature", "true")])
    "updates/1.0.0/100" "1.0.0" "ios" "u-1"
    ⟨rfl, rfl, Or.inl rfl, rfl, by decide, rfl, rfl⟩ (by decide) rfl (by decide) rfl
    (Or.inr ⟨"PRIVATE-KEY", rfl⟩)

theorem noSig_textResponse (status : Nat) (body : String) :
    noSignatureHeader (textResponse status body) := by
  intro part hmem
  simp [textResponse, HttpResponse.parts] at hmem

theorem noSig_manifestSuccess_none (env : Env)
    (updateBundlePath runtimeVersion platform : String) (pv : JsNum) :
    noSignatureHeader (manifestSuccessResponse env updateBundlePath runtimeVersion platform pv none) := by
  intro part hmem σ
  simp only [manifestSuccessResponse, HttpResponse.parts, List.mem_cons, List.not_mem_nil,
    or_false] at hmem
  rcases hmem with h | h <;> subst h <;>
    simp [signedJsonPart, partHeaders, extensionsPart]

theorem noSig_directiveSuccess_none (env : Env) (d : JsonVal) :
    noSignatureHeader (directiveSuccessResponse env d none) := by
  intro part hmem σ
  simp only [directiveSuccessResponse, HttpResponse.parts, List.mem_cons, List.not_mem_nil,
    or_false] at hmem
  subst hmem
  simp [signedJsonPart, partHeaders]

theorem GET_key_independent (env : Env) (req : HttpRequest) (k₁ k₂ : Option String)
    (hf : isTruthy (req.getHeader "expo-expect-signature") = false) :
    GET { env with getPrivateKeyAsync := k₁ } req = GET { env with getPrivateKeyAsync := k₂ } req := by
  simp only [GET, putUpdateInResponseAsync, putRollBackInResponseAsync,
    putNoUpdateAvailableInResponseAsync, computeSignature, hf, Bool.false_eq_true, if_false,
    getTypeOfUpdateAsync, resolvedProtocolVersion, buildManifest, manifestSuccessResponse,
    directiveSuccessResponse, manifestResponseHeaders, directiveResponseHeaders]

/-- C7 counterexample.  First conjunct: with `expo-expect-signature`
present and no key configured, the protocol-version-1 no-update shortcut
still returns an unsigned plain 200 message — not the claimed 400.
Second conjunct: with the header present but empty, signing is silently
skipped and an unsigned 200 multipart response is served — again not a
400. -/
theorem C7_counterexample :
    GET sampleEnv (mkRequest [("expo-protocol-version", "1"), ("expo-platform", "ios"), ("expo-runtime-version", "1.0.0"), ("expo-current-update-id", "uuid-hash-1"), ("expo-expect-signature", "sig-please")]) =
      .ok (textResponse 200 noUpdateMessageBody)
    ∧ respStatus (GET sampleEnv (mkRequest [("expo-platform", "ios"), ("expo-runtime-version", "1.0.0"), ("expo-expect-signature", "")])) = some 200 :=
  ⟨rfl, rfl⟩

/-- C7 (amended): when the `expo-expect-signature` header is present
with a non-empty value and the key provider returns no key, every path
that actually reaches signing returns the explicit 400 configuration
error — the manifest-path no-update shortcut, which precedes signing, is
the one exception, and an empty header value counts as absent; when the
header is absent or empty, no `expo-signature` part header is emitted
and the handler's result does not depend on the key provider at all. -/
theorem C7_signature_key_handling (env : Env) (req : HttpRequest)
    (updateBundlePath runtimeVersion platform : String) (pv : JsNum) :
    (isTruthy (req.getHeader "expo-expect-signature") = true → env.getPrivateKeyAsync = none →
      ((req.getHeader "expo-current-update-id" ==
          some (env.convertSHA256HashToUUID (env.getMetadataAsync updateBundlePath runtimeVersion).id)
          && pv == JsNum.int 1) = false →
        putUpdateInResponseAsync env req updateBundlePath runtimeVersion platform pv =
          codeSigningErrorResponse)
      ∧ (pv ≠ JsNum.int 0 → isTruthy (req.getHeader "expo-embedded-update-id") = true →
          (req.getHeader "expo-current-update-id" == req.getHeader "expo-embedded-update-id") = false →
          putRollBackInResponseAsync env req updateBundlePath pv = .ok codeSigningErrorResponse)
      ∧ (pv ≠ JsNum.int 0 →
          putNoUpdateAvailableInResponseAsync env req pv = .ok codeSigningErrorResponse))
    ∧ (isTruthy (req.getHeader "expo-expect-signature") = false →
        noSignatureHeader (putUpdateInResponseAsync env req updateBundlePath runtimeVersion platform pv)
        ∧ (∀ resp, putRollBackInResponseAsync env req updateBundlePath pv = .ok resp →
            noSignatureHeader resp)
        ∧ (∀ resp, putNoUpdateAvailableInResponseAsync env req pv = .ok resp →
            noSignatureHeader resp)
        ∧ (∀ k₁ k₂ : Option String,
            GET { env with getPrivateKeyAsync := k₁ } req =
              GET { env with getPrivateKeyAsync := k₂ } req)) := by
  constructor
  · intro hT hk
    refine ⟨?_, ?_, ?_⟩
    · intro hns
      rw [putUpdate_no_shortcut env req _ _ _ pv hns,
        computeSignature_no_key env req _ hT hk]
    · intro hpv hTe hne
      have h0 : (pv == JsNum.int 0) = false := beq_eq_false_iff_ne.mpr hpv
      simp only [putRollBackInResponseAsync, h0, Bool.false_eq_true, if_false, hTe,
        Bool.not_true, hne, computeSignature_no_key env req _ hT hk]
    · intro hpv
      have h0 : (pv == JsNum.int 0) = false := beq_eq_false_iff_ne.mpr hpv
      simp only [putNoUpdateAvailableInResponseAsync, h0, Bool.false_eq_true, if_false,
        computeSignature_no_key env req _ hT hk]
  · intro hf
    refine ⟨?_, ?_, ?_, ?_⟩
    · by_cases hc : (req.getHeader "expo-current-update-id" ==
          some (env.convertSHA256HashToUUID (env.getMetadataAsync updateBundlePath runtimeVersion).id)
          && pv == JsNum.int 1) = true
      · rw [putUpdate_shortcut_cond env req _ _ _ pv hc]
        exact noSig_textResponse 200 noUpdateMessageBody
      · rw [putUpdate_no_shortcut env req _ _ _ pv (by simpa using hc),
          computeSignature_flag_false env req _ hf]
        exact noSig_manifestSuccess_none env _ _ _ pv
    · intro resp hresp
      simp only [putRollBackInResponseAsync, computeSignature_flag_false env req _ hf] at hresp
      split at hresp
      · simp at hresp
      · split at hresp
        · simp at hresp
        · split at hresp
          · simp at hresp
          · injection hresp with hresp
            subst hresp
            exact noSig_directiveSuccess_none env _
    · intro resp hresp
      simp only [putNoUpdateAvailableInResponseAsync,
        computeSignature_flag_false env req _ hf] at hresp
      split at hresp
      · simp at hresp
      · injection hresp with hresp
        subst hresp
        exact noSig_directiveSuccess_none env _
    · intro k₁ k₂
      exact GET_key_independent env req k₁ k₂ hf

/-- Witness for C7: with signing requested, no key and no matching
current-update-id, the manifest path returns the 400 configuration
error. -/
theorem C7_witness :
    putUpdateInResponseAsync sampleEnv (mkRequest [("expo-expect-signature", "true")])
        "updates/1.0.0/100" "1.0.0" "ios" (JsNum.int 0) = codeSigningErrorResponse :=
  (((C7_signature_key_handling sampleEnv (mkRequest [("expo-expect-signature", "true")])
      "updates/1.0.0/100" "1.0.0" "ios" (JsNum.int 0)).1 rfl rfl).1) (by decide)

/-- C8 counterexample: for a NORMAL bundle with two platform assets the
`assetRequestHeaders` mapping in the `extensions` part has THREE keys
(the two assets plus the launch asset), not two as claimed; the served
extensions body is exactly the serialization of that three-key map. -/
theorem C8_counterexample :
    (assetRequestHeadersList (buildManifest sampleEnv "updates/1.0.0/100" "1.0.0" "ios")).length = 3
    ∧ extensionsBodyOf (GET sampleEnv (mkRequest [("expo-protocol-version", "1"), ("expo-platform", "ios"), ("expo-runtime-version", "1.0.0")])) =
        some (JsonVal.stringify (.obj [("assetRequestHeaders",
          .obj (assetRequestHeadersList (buildManifest sampleEnv "updates/1.0.0/100" "1.0.0" "ios")))])) :=
  ⟨rfl, rfl⟩

/-- C8 (amended): protocol version 1, valid platform and runtime
version, no current-update-id, NORMAL bundle with two platform assets
(and, as the code requires, a signing key available when requested and
pairwise-distinct asset keys): the response is the 200 multipart
manifest whose `manifest` part has an `assets` sequence of length 2 plus
a distinct `launchAsset`, and whose `extensions` part maps exactly THREE
keys (one per asset plus the launch asset), not two. -/
theorem C8_two_asset_manifest (env : Env) (req : HttpRequest)
    (updateBundlePath runtimeVersion platform : String)
    (a b : AssetFileInfo) (d1 d2 dL : AssetDescriptor)
    (hd : NormalDispatch env req updateBundlePath runtimeVersion platform)
    (hpv : resolvedProtocolVersion req = JsNum.int 1)
    (hcur : req.getHeader "expo-current-update-id" = none)
    (hassets : ((env.getMetadataAsync updateBundlePath runtimeVersion).metadataJson.fileMetadata platform).assets = [a, b])
    (hd1 : env.getAssetMetadataAsync ⟨updateBundlePath, a.path, some a.ext, runtimeVersion, platform, false⟩ = d1)
    (hd2 : env.getAssetMetadataAsync ⟨updateBundlePath, b.path, some b.ext, runtimeVersion, platform, false⟩ = d2)
    (hdL : env.getAssetMetadataAsync ⟨updateBundlePath, ((env.getMetadataAsync updateBundlePath runtimeVersion).metadataJson.fileMetadata platform).bundle, none, runtimeVersion, platform, true⟩ = dL)
    (hk12 : d1.key ≠ d2.key) (hk1L : d1.key ≠ dL.key) (hk2L : d2.key ≠ dL.key)
    (hsp : signingPrereq env req) :
    GET env req = .ok (manifestSuccessResponse env updateBundlePath runtimeVersion platform
        (JsNum.int 1)
        (signatureOf env req (buildManifest env updateBundlePath runtimeVersion platform).stringify))
    ∧ (buildManifest env updateBundlePath runtimeVersion platform).assets.length = 2
    ∧ (assetRequestHeadersList (buildManifest env updateBundlePath runtimeVersion platform)).length = 3 := by
  have hns : (req.getHeader "expo-current-update-id" ==
      some (env.convertSHA256HashToUUID (env.getMetadataAsync updateBundlePath runtimeVersion).id)
      && JsNum.int 1 == JsNum.int 1) = false := by
    simp [hcur]
  have h12 : (d1.key == d2.key) = false := beq_eq_false_iff_ne.mpr hk12
  have h1L : (d1.key == dL.key) = false := beq_eq_false_iff_ne.mpr hk1L
  have h2L : (d2.key == dL.key) = false := beq_eq_false_iff_ne.mpr hk2L
  refine ⟨?_, ?_, ?_⟩
  · rw [GET_normal_dispatch env req _ _ _ hd, hpv,
      putUpdate_no_shortcut env req _ _ _ _ hns,
      computeSignature_eq_of_prereq env req _ hsp]
  · simp [buildManifest, hassets]
  · simp [assetRequestHeadersList, buildManifest, hassets, hd1, hd2, hdL,
      jsObjectInsert, h12, h1L, h2L]

/-- Witness for C8 at the concrete two-asset sample bundle. -/
theorem C8_witness :
    GET sampleEnv (mkRequest [("expo-protocol-version", "1"), ("expo-platform", "android"), ("expo-runtime-version", "1.0.0")]) =
      .ok (manifestSuccessResponse sampleEnv "updates/1.0.0/100" "1.0.0" "android"
        (JsNum.int 1)
        (signatureOf sampleEnv (mkRequest [("expo-protocol-version", "1"), ("expo-platform", "android"), ("expo-runtime-version", "1.0.0")])
          (buildManifest sampleEnv "updates/1.0.0/100" "1.0.0" "android").stringify))
    ∧ (buildManifest sampleEnv "updates/1.0.0/100" "1.0.0" "android").assets.length = 2
    ∧ (assetRequestHeadersList (buildManifest sampleEnv "updates/1.0.0/100" "1.0.0" "android")).length = 3 :=
  C8_two_asset_manifest sampleEnv
    (mkRequest [("expo-protocol-version", "1"), ("expo-platform", "android"), ("expo-runtime-version", "1.0.0")])
    "updates/1.0.0/100" "1.0.0" "android"
    { path := "assets/aaaa", ext := "png" } { path := "assets/bbbb", ext := "ttf" }
    sampleAssetA sampleAssetB sampleLaunchAsset
    ⟨rfl, rfl, Or.inr rfl, rfl, by decide, rfl, rfl⟩ rfl rfl rfl rfl rfl rfl
    (by decide) (by decide) (by decide) (Or.inl rfl)

/-- C10 counterexample.  First conjunct: current-update-id absent but
the manifest path returns the 400 code-signing error (signing requested,
no key), not a full manifest.  Second conjunct: current-update-id absent
and embedded-update-id present, but the rollback path under protocol
version 0 returns the 404 failure, not a RollBackDirective. -/
theorem C10_counterexample :
    respStatus (GET sampleEnv (mkRequest [("expo-protocol-version", "1"), ("expo-platform", "ios"), ("expo-runtime-version", "1.0.0"), ("expo-expect-signature", "true")])) = some 400
    ∧ respStatus (GET rollbackEnv (mkRequest [("expo-platform", "ios"), ("expo-runtime-version", "1.0.0"), ("expo-embedded-update-id", "u-1")])) = some 404 :=
  ⟨rfl, rfl⟩

/-- C10 (amended): with `expo-current-update-id` absent, neither
no-update path is ever taken: the manifest path never returns the plain
no-update message and, when signing can proceed, serves the full
multipart manifest; the rollback path never raises the no-update
condition and, when additionally the protocol version is non-zero, the
embedded-update-id is present (non-empty) and signing can proceed,
serves the multipart RollBackDirective. -/
theorem C10_absent_current_update_id (env : Env) (req : HttpRequest)
    (updateBundlePath runtimeVersion platform : String) (pv : JsNum)
    (hcur : req.getHeader "expo-current-update-id" = none) :
    (putUpdateInResponseAsync env req updateBundlePath runtimeVersion platform pv ≠
        textResponse 200 noUpdateMessageBody)
    ∧ (signingPrereq env req →
        putUpdateInResponseAsync env req updateBundlePath runtimeVersion platform pv =
          manifestSuccessResponse env updateBundlePath runtimeVersion platform pv
            (signatureOf env req (buildManifest env updateBundlePath runtimeVersion platform).stringify))
    ∧ (putRollBackInResponseAsync env req updateBundlePath pv ≠ .error .noUpdateAvailable)
    ∧ (pv ≠ JsNum.int 0 → isTruthy (req.getHeader "expo-embedded-update-id") = true →
        signingPrereq env req →
        putRollBackInResponseAsync env req updateBundlePath pv =
          .ok (directiveSuccessResponse env (env.createRollBackDirectiveAsync updateBundlePath)
            (signatureOf env req (env.createRollBackDirectiveAsync updateBundlePath).stringify))) := by
  have hns : (req.getHeader "expo-current-update-id" ==
      some (env.convertSHA256HashToUUID (env.getMetadataAsync updateBundlePath runtimeVersion).id)
      && pv == JsNum.int 1) = false := by
    simp [hcur]
  refine ⟨?_, ?_, ?_, ?_⟩
  · rw [putUpdate_no_shortcut env req _ _ _ pv hns]
    cases hcs : computeSignature env req (buildManifest env updateBundlePath runtimeVersion platform).stringify with
    | error r =>
        simp only [hcs]
        rw [computeSignature_error_inv env req _ r hcs]
        intro hcontra
        have hs := congrArg HttpResponse.status hcontra
        simp [codeSigningErrorResponse, textResponse] at hs
    | ok s =>
        simp only [hcs]
        intro hcontra
        have hb := congrArg HttpResponse.body hcontra
        simp [manifestSuccessResponse, textResponse] at hb
  · intro hsp
    rw [putUpdate_no_shortcut env req _ _ _ pv hns,
      computeSignature_eq_of_prereq env req _ hsp]
  · simp only [putRollBackInResponseAsync]
    split
    · simp
    · split
      · simp
      · cases hemb : req.getHeader "expo-embedded-update-id" with
        | none =>
            rename_i hT
            rw [hemb] at hT
            simp [isTruthy] at hT
        | some e =>
            have hne : (req.getHeader "expo-current-update-id" == some e) = false := by
              rw [hcur]
              rfl
            simp only [hne, Bool.false_eq_true, if_false]
            split <;> simp
  · intro hpv hTe hsp
    have h0 : (pv == JsNum.int 0) = false := beq_eq_false_iff_ne.mpr hpv
    cases hemb : req.getHeader "expo-embedded-update-id" with
    | none => rw [hemb] at hTe; simp [isTruthy] at hTe
    | some e =>
        rw [hemb] at hTe
        have hne : (req.getHeader "expo-current-update-id" == some e) = false := by
          rw [hcur]
          rfl
        simp only [putRollBackInResponseAsync, h0, Bool.false_eq_true, if_false, hemb, hTe,
          Bool.not_true, hne, computeSignature_eq_of_prereq env req _ hsp]

/-- Witness for C10: with the current-update-id absent and everything
else in order, the rollback path serves the signed RollBackDirective. -/
theorem C10_witness :
    putRollBackInResponseAsync rollbackEnvWithKey
        (mkRequest [("expo-embedded-update-id", "u-1"), ("expo-expect-signature", "true")])
        "updates/1.0.0/100" (JsNum.int 1) =
      .ok (directiveSuccessResponse rollbackEnvWithKey
        (rollbackEnvWithKey.createRollBackDirectiveAsync "updates/1.0.0/100")
        (signatureOf rollbackEnvWithKey
          (mkRequest [("expo-embedded-update-id", "u-1"), ("expo-expect-signature", "true")])
          (rollbackEnvWithKey.createRollBackDirectiveAsync "updates/1.0.0/100").stringify)) :=
  (C10_absent_current_update_id rollbackEnvWithKey
    (mkRequest [("expo-embedded-update-id", "u-1"), ("expo-expect-signature", "true")])
    "updates/1.0.0/100" "1.0.0" "ios" (JsNum.int 1) rfl).2.2.2
    (by decide) rfl (Or.inr ⟨"PRIVATE-KEY", rfl⟩)

end ExpoUpdates
